import Mathlib

/-!
Shallow embedding of `src/cocotb/__init__.py` (the cocotb control plane):
the task-done escalation callback, task wrapping, plusargs parsing, the
random-seed resolver, root-handle resolution, and regression-manager setup.
Python strings are modelled as `List Char`; environment variables as
`Option (List Char)`; side effects (logging, warnings, calls into the
regression manager) as explicit event lists; raised exceptions as error
values.
-/

/-- Converts a Lean string literal to the `List Char` model of Python strings. -/
def chars (s : String) : List Char := s.toList

/-! ## Exception escalation monitor (`_task_done_callback`) -/

/-- Classification of a Python exception as seen by `_task_done_callback`:
`isinstance(e, (TestSuccess, AssertionError))` distinguishes the first two
constructors from every other error. -/
inductive PyErr where
  | testSuccess
  | assertionError
  | other (code : Nat)
deriving DecidableEq, Repr

/-- Observable actions of `_task_done_callback`: the two log calls and the
`regression_manager._abort_test(e)` call, in program order. -/
inductive TdAction where
  | logInfoStopped
  | logErrorRaised
  | abortTest (e : PyErr)
deriving DecidableEq, Repr

/-- The fields of a `cocotb.task.Task` inspected by `_task_done_callback`:
its completion-trigger identity (`task.complete`), whether it was cancelled
(`task.cancelled()`), and its recorded exception (`task.exception()`). -/
structure SchedTask where
  complete : Nat
  cancelled : Bool
  exc : Option PyErr
deriving DecidableEq, Repr

/-- Embedding of `_task_done_callback` (src/cocotb/__init__.py lines 138-155).
`trigger2tasks` models the scheduler's `_trigger2tasks` mapping: the keys are
the triggers some task is currently suspended on. Returns the list of
log/abort actions performed, in order. -/
def _task_done_callback (trigger2tasks : List (Nat × List Nat))
    (task : SchedTask) : List TdAction :=
  if task.cancelled then []
  else if (trigger2tasks.map Prod.fst).contains task.complete then []
  else
    match task.exc with
    | none => []
    | some e =>
      if e = .testSuccess ∨ e = .assertionError then
        [.logInfoStopped, .abortTest e]
      else
        [.logErrorRaised, .abortTest e]

/-! ## Task lifecycle manager (`create_task`) -/

/-- A `cocotb.task.Task` as constructed by `create_task`: it owns the wrapped
coroutine body (identified by a number). -/
structure PyTask where
  body : Nat
deriving DecidableEq, Repr

/-- The run-time shapes `create_task` distinguishes via `isinstance` and
`inspect` checks on its argument. -/
inductive CoroInput where
  | task (t : PyTask)
  | coroutine (body : Nat)
  | coroutineFunction (f : Nat)
  | asyncGenerator (g : Nat)
  | otherObject (ty : Nat)
deriving DecidableEq, Repr

/-- The three `TypeError` variants raised by `create_task`. -/
inductive CreateTaskError where
  | coroutineFunctionNotCalled
  | asyncGeneratorNotCoroutine
  | unsupportedType
deriving DecidableEq, Repr

/-- Embedding of `create_task` (src/cocotb/__init__.py lines 205-238). -/
def create_task : CoroInput → Except CreateTaskError PyTask
  | .task t => .ok t
  | .coroutine b => .ok ⟨b⟩
  | .coroutineFunction _ => .error .coroutineFunctionNotCalled
  | .asyncGenerator _ => .error .asyncGeneratorNotCoroutine
  | .otherObject _ => .error .unsupportedType

/-! ## Plusargs parser (`_process_plusargs`) -/

/-- A plusargs value: `True` for a bare `+flag`, or the string after the
first `=`. -/
inductive PlusargVal where
  | flag
  | str (s : List Char)
deriving DecidableEq, Repr

/-- The plusargs dictionary, insertion-ordered with in-place overwrite,
modelling a Python `dict`. -/
abbrev PlusargMap := List (List Char × PlusargVal)

/-- Python `dict` assignment `m[k] = v`: replace in place if present,
else append. -/
def updateAssoc (m : PlusargMap) (k : List Char) (v : PlusargVal) : PlusargMap :=
  match m with
  | [] => [(k, v)]
  | (k', v') :: rest =>
    if k' = k then (k, v) :: rest else (k', v') :: updateAssoc rest k v

/-- Python `dict` lookup `m.get(k)`. -/
def lookupAssoc (m : PlusargMap) (k : List Char) : Option PlusargVal :=
  match m with
  | [] => none
  | (k', v') :: rest => if k' = k then some v' else lookupAssoc rest k

/-- Models `s.split("=", 1)` preceded by the `s.find("=") != -1` test:
`some (before, after)` around the first `=`, or `none` when there is no `=`. -/
def splitFirstEq : List Char → Option (List Char × List Char)
  | [] => none
  | c :: cs =>
    if c = '=' then some ([], cs)
    else
      match splitFirstEq cs with
      | none => none
      | some (n, v) => some (c :: n, v)

/-- One iteration of the loop in `_process_plusargs` (src/cocotb/__init__.py
lines 324-330): a `+`-prefixed token with `=` maps name to the remainder,
without `=` maps name to `True`; other tokens are ignored. -/
def plusargStep (m : PlusargMap) (option : List Char) : PlusargMap :=
  match option with
  | [] => m
  | c :: rest =>
    if c = '+' then
      match splitFirstEq rest with
      | some (name, value) => updateAssoc m name (.str value)
      | none => updateAssoc m rest .flag
    else m

/-- Embedding of `_process_plusargs` (src/cocotb/__init__.py lines 319-330):
fold the step over the argument vector starting from an empty dict. -/
def _process_plusargs (argv : List (List Char)) : PlusargMap :=
  argv.foldl plusargStep []

/-! ## Python string helpers shared by the setup functions -/

/-- Python `s.strip()`: drop whitespace from both ends. -/
def pyStrip (s : List Char) : List Char :=
  ((s.dropWhile Char.isWhitespace).reverse.dropWhile Char.isWhitespace).reverse

/-- Python `s.split(",")`: pieces between commas; `"".split(",") == [""]`. -/
def splitComma : List Char → List (List Char)
  | [] => [[]]
  | c :: cs =>
    if c = ',' then [] :: splitComma cs
    else
      match splitComma cs with
      | [] => [[c]]
      | p :: ps => (c :: p) :: ps

/-- The comprehension `[s.strip() for s in x.split(",") if s.strip()]` used
for both module lists and testcase filters. -/
def stripSplitComma (s : List Char) : List (List Char) :=
  ((splitComma s).map pyStrip).filter (fun m => m ≠ [])

/-! ## Seed resolver (`_setup_random_seed`) -/

/-- Models the result of Python `ast.literal_eval` on the literal shapes the
seed resolver can meet: an integer literal, a floating-point literal (payload
kept verbatim), or a parse failure (`none`, Python raises `ValueError`). -/
inductive PyLit where
  | intLit (n : Int)
  | floatLit (s : List Char)
deriving DecidableEq, Repr

/-- Numeric value of a digit string. -/
def digitsToNat (s : List Char) : Nat :=
  s.foldl (fun acc c => 10 * acc + (c.toNat - '0'.toNat)) 0

/-- Models `ast.literal_eval` restricted to numeric literals: an optional
minus sign followed by digits is an integer literal; digits with exactly one
`.` form a float literal; any other string fails to parse. -/
def literal_eval (s : List Char) : Option PyLit :=
  let (neg, body) :=
    match s with
    | '-' :: rest => (true, rest)
    | _ => (false, s)
  if body ≠ [] ∧ body.all Char.isDigit then
    let n : Int := digitsToNat body
    some (.intLit (if neg then -n else n))
  else if body.count '.' = 1 ∧ (body.filter (fun c => c ≠ '.')).all Char.isDigit
      ∧ body.filter (fun c => c ≠ '.') ≠ [] then
    some (.floatLit s)
  else none

/-- Side effects of `_setup_random_seed`, in program order: the
`DeprecationWarning` for `RANDOM_SEED` and the `log.info` seeding message. -/
inductive SeedEvent where
  | deprecationWarning
  | logSeedInfo
deriving DecidableEq, Repr

/-- Exceptions `_setup_random_seed` can raise: a `ValueError` from
`ast.literal_eval`, or the `TypeError` for an invalid plusarg seed. -/
inductive SeedError where
  | literalEvalError
  | typeError
deriving DecidableEq, Repr

/-- The plusarg branches of `_setup_random_seed` (lines 421-436): a non-string
value is a `TypeError`; the string is `literal_eval`-ed and must be an
integer, else `TypeError`. On success the seeding message is logged. -/
def plusargSeedBranch (v : PlusargVal) : List SeedEvent × Except SeedError PyLit :=
  match v with
  | .flag => ([], .error .typeError)
  | .str s =>
    match literal_eval s with
    | none => ([], .error .literalEvalError)
    | some (.intLit n) => ([.logSeedInfo], .ok (.intLit n))
    | some _ => ([], .error .typeError)

/-- Embedding of `_setup_random_seed` (src/cocotb/__init__.py lines 409-444).
Arguments are the values of `COCOTB_RANDOM_SEED` and `RANDOM_SEED`, the
plusargs dict, and the wall-clock fallback `int(time.time())`. Returns the
events emitted before returning or raising, and either the value assigned to
`_random_seed` (note: the environment-variable branch performs no integer
check) or the exception raised. -/
def _setup_random_seed (cocotb_random_seed random_seed : Option (List Char))
    (plusargs : PlusargMap) (now : Int) :
    List SeedEvent × Except SeedError PyLit :=
  match cocotb_random_seed with
  | some sv =>
    (match literal_eval sv with
     | some lit => ([.logSeedInfo], .ok lit)
     | none => ([], .error .literalEvalError))
  | none =>
    match random_seed with
    | some sv =>
      (match literal_eval sv with
       | some lit => ([.deprecationWarning, .logSeedInfo], .ok lit)
       | none => ([.deprecationWarning], .error .literalEvalError))
    | none =>
      match lookupAssoc plusargs (chars "ntb_random_seed") with
      | some v => plusargSeedBranch v
      | none =>
        match lookupAssoc plusargs (chars "seed") with
        | some v => plusargSeedBranch v
        | none => ([.logSeedInfo], .ok (.intLit now))

/-! ## Root handle resolver (`_setup_root_handle`) -/

/-- Python `root_name.split(".", 1)[1]`: everything after the first `.`. -/
def afterFirstDot : List Char → List Char
  | [] => []
  | c :: cs => if c = '.' then cs else afterFirstDot cs

/-- The name-normalisation part of `_setup_root_handle` (lines 448-455):
strip whitespace, treat empty as absent, and drop the library qualifier up to
and including the first `.`. -/
def resolveRootName (cocotb_toplevel : Option (List Char)) : Option (List Char) :=
  match cocotb_toplevel with
  | none => none
  | some s =>
    let s := pyStrip s
    if s = [] then none
    else if s.contains '.' then some (afterFirstDot s)
    else some s

/-- Embedding of `_setup_root_handle` (src/cocotb/__init__.py lines 447-464).
`bridge` models `simulator.get_root_handle`; a falsy result raises
`RuntimeError` naming the attempted root string, carried in the error. -/
def _setup_root_handle (cocotb_toplevel : Option (List Char))
    (bridge : Option (List Char) → Option Nat) :
    Except (Option (List Char)) Nat :=
  let root_name := resolveRootName cocotb_toplevel
  match bridge root_name with
  | some h => .ok h
  | none => .error root_name

/-! ## Regression manager setup (`_setup_regression_manager`) -/

/-- Calls `_setup_regression_manager` makes into the regression manager, in
program order, together with the deprecation warning for `COCOTB_TESTCASE`. -/
inductive RmEvent where
  | setupAssertionRewriting
  | discoverTests (modules : List (List Char))
  | warnTestcaseDeprecated
  | addFilters (filters : List (List Char))
  | setModeTestcase
deriving DecidableEq, Repr

/-- The two `RuntimeError`s `_setup_regression_manager` can raise. -/
inductive RmError where
  | emptyModules
  | bothFilters
deriving DecidableEq, Repr

/-- The filter list built from `COCOTB_TESTCASE` (line 491):
`[f-string of s.strip() followed by a dollar for s in split(",") if s.strip()]`. -/
def testcaseFilters (s : List Char) : List (List Char) :=
  (stripSplitComma s).map (fun f => f ++ ['$'])

/-- Embedding of `_setup_regression_manager` (src/cocotb/__init__.py lines
467-496). Arguments are `COCOTB_TEST_MODULES`, `COCOTB_TESTCASE` and
`COCOTB_TEST_FILTER` (with `os.getenv` defaulting each to the empty string).
Returns the regression-manager calls made, in order, and the error raised if
any. -/
def _setup_regression_manager
    (test_modules testcase test_filter : Option (List Char)) :
    List RmEvent × Option RmError :=
  let module_str := test_modules.getD []
  if module_str = [] then ([], some .emptyModules)
  else
    let modules := stripSplitComma module_str
    let ev := [RmEvent.setupAssertionRewriting, RmEvent.discoverTests modules]
    let testcase_str := pyStrip (testcase.getD [])
    let test_filter_str := pyStrip (test_filter.getD [])
    if testcase_str ≠ [] ∧ test_filter_str ≠ [] then (ev, some .bothFilters)
    else if testcase_str ≠ [] then
      (ev ++ [.warnTestcaseDeprecated, .addFilters (testcaseFilters testcase_str),
              .setModeTestcase], none)
    else if test_filter_str ≠ [] then
      (ev ++ [.addFilters [test_filter_str], .setModeTestcase], none)
    else (ev, none)

/-! ## Helper lemmas -/

/-- When a name contains no `=`, `splitFirstEq` reports no `=`. -/
theorem splitFirstEq_no_eq {name : List Char} (h : '=' ∉ name) :
    splitFirstEq name = none := by
  induction name with
  | nil => rfl
  | cons c cs ih =>
    simp only [List.mem_cons, not_or] at h
    have hc : c ≠ '=' := fun hc => h.1 hc.symm
    simp [splitFirstEq, hc, ih h.2]

/-- Splitting on the first `=` returns the `=`-free prefix and the verbatim
remainder. -/
theorem splitFirstEq_append {name : List Char} (rest : List Char)
    (h : '=' ∉ name) :
    splitFirstEq (name ++ '=' :: rest) = some (name, rest) := by
  induction name with
  | nil => simp [splitFirstEq]
  | cons c cs ih =>
    simp only [List.mem_cons, not_or] at h
    have hc : c ≠ '=' := fun hc => h.1 hc.symm
    simp [splitFirstEq, hc, ih h.2]

/-- Dict assignment followed by lookup of the same key yields the new value
(last occurrence wins). -/
theorem lookupAssoc_updateAssoc (m : PlusargMap) (k : List Char)
    (v : PlusargVal) :
    lookupAssoc (updateAssoc m k v) k = some v := by
  induction m with
  | nil => simp [updateAssoc, lookupAssoc]
  | cons kv rest ih =>
    obtain ⟨k', v'⟩ := kv
    by_cases hk : k' = k
    · simp [updateAssoc, lookupAssoc, hk]
    · simp [updateAssoc, lookupAssoc, hk, ih]

/-- Stripping a string of only whitespace yields the empty string. -/
theorem pyStrip_all_ws {p : List Char} (h : ∀ c ∈ p, c.isWhitespace) :
    pyStrip p = [] := by
  unfold pyStrip
  rw [List.dropWhile_eq_nil_iff.mpr h]
  rfl

/-- Stripping ignores whitespace padding on either side. -/
theorem pyStrip_pad {pre post : List Char} (s : List Char)
    (hpre : ∀ c ∈ pre, c.isWhitespace) (hpost : ∀ c ∈ post, c.isWhitespace) :
    pyStrip (pre ++ (s ++ post)) = pyStrip s := by
  unfold pyStrip
  rw [List.dropWhile_append_of_pos hpre]
  by_cases hd : s.dropWhile Char.isWhitespace = []
  · have hs : ∀ c ∈ s, c.isWhitespace := List.dropWhile_eq_nil_iff.mp hd
    have hall : ∀ c ∈ s ++ post, Char.isWhitespace c := by
      intro c hc
      rcases List.mem_append.mp hc with h | h
      · exact hs c h
      · exact hpost c h
    rw [List.dropWhile_eq_nil_iff.mpr hall, hd]
  · rw [List.dropWhile_append, if_neg (by simpa using hd), List.reverse_append,
      List.dropWhile_append_of_pos (fun c hc => hpost c (List.mem_reverse.mp hc))]

/-- Everything after the first `.` is returned verbatim. -/
theorem afterFirstDot_append {a : List Char} (b : List Char) (h : '.' ∉ a) :
    afterFirstDot (a ++ '.' :: b) = b := by
  induction a with
  | nil => simp [afterFirstDot]
  | cons c cs ih =>
    simp only [List.mem_cons, not_or] at h
    have hc : c ≠ '.' := fun hc => h.1 hc.symm
    simp [afterFirstDot, hc, ih h.2]

/-- Every character of a piece produced by `splitComma` occurs in the input
and is not a comma. -/
theorem mem_of_mem_splitComma {s : List Char} :
    ∀ {p : List Char}, p ∈ splitComma s → ∀ c ∈ p, c ∈ s ∧ c ≠ ',' := by
  induction s with
  | nil =>
    intro p hp c hc
    simp [splitComma] at hp
    subst hp
    simp at hc
  | cons a as ih =>
    intro p hp c hc
    by_cases ha : a = ','
    · simp only [splitComma, ha, if_true, List.mem_cons] at hp
      rcases hp with h | h
      · subst h; simp at hc
      · have h2 := ih h c hc
        exact ⟨List.mem_cons_of_mem _ h2.1, h2.2⟩
    · cases hsp : splitComma as with
      | nil =>
        simp only [splitComma, ha, if_false, hsp, List.mem_singleton] at hp
        subst hp
        have hca : c = a := List.mem_singleton.mp hc
        subst hca
        exact ⟨List.mem_cons_self _ _, ha⟩
      | cons q qs =>
        simp only [splitComma, ha, if_false, hsp, List.mem_cons] at hp
        rcases hp with h | h
        · subst h
          rcases List.mem_cons.mp hc with hca | hcq
          · subst hca
            exact ⟨List.mem_cons_self _ _, ha⟩
          · have hq : q ∈ splitComma as := by
              rw [hsp]; exact List.mem_cons_self _ _
            have h2 := ih hq c hcq
            exact ⟨List.mem_cons_of_mem _ h2.1, h2.2⟩
        · have hq : p ∈ splitComma as := by
            rw [hsp]; exact List.mem_cons_of_mem _ h
          have h2 := ih hq c hc
          exact ⟨List.mem_cons_of_mem _ h2.1, h2.2⟩

/-- A string of only commas and whitespace splits into pieces that all strip
to empty, so the strip-and-filter comprehension yields no entries. -/
theorem stripSplitComma_sep {s : List Char}
    (h : ∀ c ∈ s, c = ',' ∨ c.isWhitespace) : stripSplitComma s = [] := by
  unfold stripSplitComma
  apply List.filter_eq_nil_iff.mpr
  intro m hm
  obtain ⟨p, hp, rfl⟩ := List.mem_map.mp hm
  have hps : pyStrip p = [] := by
    apply pyStrip_all_ws
    intro c hc
    have h2 := mem_of_mem_splitComma hp c hc
    rcases h c h2.1 with rfl | hws
    · exact absurd rfl h2.2
    · exact hws
  simp [hps]

/-! ## Claim theorems -/

/-- Claim C1: a terminal transition of a non-cancelled task with no other
task suspended on its completion condition, finishing with an error that is
neither the session-success signal nor an assertion failure, performs exactly
one session-abort call carrying that error, after the error-level log. -/
theorem unobserved_failure_escalates_once (t2t : List (Nat × List Nat))
    (task : SchedTask) (e : PyErr)
    (hc : task.cancelled = false)
    (hw : (t2t.map Prod.fst).contains task.complete = false)
    (he : task.exc = some e)
    (hns : e ≠ PyErr.testSuccess) (hna : e ≠ PyErr.assertionError) :
    _task_done_callback t2t task = [.logErrorRaised, .abortTest e] ∧
    (_task_done_callback t2t task).count (TdAction.abortTest e) = 1 := by
  have h : _task_done_callback t2t task = [.logErrorRaised, .abortTest e] := by
    simp only [_task_done_callback, hc, hw, he]
    simp [hns, hna]
  refine ⟨h, ?_⟩
  rw [h]
  simp [List.count_cons]

/-- Witness for C1 at a concrete task with a plain error. -/
theorem unobserved_failure_escalates_once_witness :
    _task_done_callback [] ⟨0, false, some (PyErr.other 7)⟩ =
      [.logErrorRaised, .abortTest (PyErr.other 7)] ∧
    (_task_done_callback [] ⟨0, false, some (PyErr.other 7)⟩).count
      (TdAction.abortTest (PyErr.other 7)) = 1 :=
  unobserved_failure_escalates_once [] ⟨0, false, some (PyErr.other 7)⟩
    (PyErr.other 7) rfl rfl rfl (by decide) (by decide)

/-- Claim C2: a cancelled task's terminal transition performs no action at
all — no log, no session abort — whatever error it may carry. -/
theorem cancelled_task_silent (t2t : List (Nat × List Nat)) (task : SchedTask)
    (hc : task.cancelled = true) :
    _task_done_callback t2t task = [] := by
  simp [_task_done_callback, hc]

/-- Witness for C2 at a concrete cancelled task carrying an error. -/
theorem cancelled_task_silent_witness :
    _task_done_callback [] ⟨0, true, some (PyErr.other 1)⟩ = [] :=
  cancelled_task_silent [] ⟨0, true, some (PyErr.other 1)⟩ rfl

/-- Claim C3: when another task is suspended awaiting the finished task's
completion condition, the monitor performs no action, even on failure. -/
theorem awaited_task_no_abort (t2t : List (Nat × List Nat)) (task : SchedTask)
    (hc : task.cancelled = false)
    (hw : (t2t.map Prod.fst).contains task.complete = true) :
    _task_done_callback t2t task = [] := by
  simp only [_task_done_callback, hc, hw]
  simp

/-- Witness for C3 at a concrete awaited, failed task. -/
theorem awaited_task_no_abort_witness :
    _task_done_callback [(5, [1])] ⟨5, false, some (PyErr.other 2)⟩ = [] :=
  awaited_task_no_abort [(5, [1])] ⟨5, false, some (PyErr.other 2)⟩ rfl
    (by decide)

/-- Claim C4, counterexample: with `COCOTB_RANDOM_SEED=42` and
`RANDOM_SEED=7`, the seed resolves to 42 but, contrary to the claim, no
deprecation warning is emitted: the deprecated variable is never consulted
when the primary is set. -/
theorem seed_precedence_warning_counterexample :
    (_setup_random_seed (some (chars "42")) (some (chars "7")) [] 0).2 =
      Except.ok (PyLit.intLit 42) ∧
    SeedEvent.deprecationWarning ∉
      (_setup_random_seed (some (chars "42")) (some (chars "7")) [] 0).1 :=
  ⟨rfl, by decide⟩

/-- Claim C4, amended: with both variables set to 42 and 7 the seed resolves
to 42 and no deprecation warning is emitted; the deprecated variable is
ignored entirely when the primary is set, and the warning fires exactly when
the primary is unset and the deprecated variable is present. -/
theorem seed_precedence_primary_wins :
    _setup_random_seed (some (chars "42")) (some (chars "7")) [] 0 =
      ([SeedEvent.logSeedInfo], Except.ok (PyLit.intLit 42)) ∧
    (∀ (d : Option (List Char)) (pa : PlusargMap) (n : Int),
      _setup_random_seed (some (chars "42")) d pa n =
        ([SeedEvent.logSeedInfo], Except.ok (PyLit.intLit 42))) ∧
    (∀ (pa : PlusargMap) (n : Int),
      _setup_random_seed none (some (chars "7")) pa n =
        ([SeedEvent.deprecationWarning, SeedEvent.logSeedInfo],
         Except.ok (PyLit.intLit 7))) :=
  ⟨rfl, fun _ _ _ => rfl, fun _ _ => rfl⟩

/-- Claim C5, counterexample: with both mutually exclusive filters set the
error is raised, but test discovery has already been performed — the
discover-tests call appears in the emitted event list, contradicting "before
test discovery". -/
theorem both_filters_discovery_counterexample :
    (_setup_regression_manager (some (chars "mod")) (some (chars "a"))
        (some (chars "b"))).2 = some RmError.bothFilters ∧
    RmEvent.discoverTests [chars "mod"] ∈
      (_setup_regression_manager (some (chars "mod")) (some (chars "a"))
        (some (chars "b"))).1 := by
  constructor
  · rfl
  · decide

/-- Claim C5, amended: with a non-empty module variable and both filter
variables non-empty after stripping, setup raises the both-filters error, but
only after assertion-rewriting setup and test discovery have run. -/
theorem both_filters_error_after_discovery (ms tc tf : List Char)
    (hms : ms ≠ []) (htc : pyStrip tc ≠ []) (htf : pyStrip tf ≠ []) :
    _setup_regression_manager (some ms) (some tc) (some tf) =
      ([.setupAssertionRewriting, .discoverTests (stripSplitComma ms)],
       some RmError.bothFilters) := by
  simp [_setup_regression_manager, hms, htc, htf]

/-- Witness for the amended C5 at concrete variable values. -/
theorem both_filters_error_after_discovery_witness :
    _setup_regression_manager (some (chars "mod")) (some (chars "tc"))
        (some (chars "tf")) =
      ([.setupAssertionRewriting,
        .discoverTests (stripSplitComma (chars "mod"))],
       some RmError.bothFilters) :=
  both_filters_error_after_discovery (chars "mod") (chars "tc") (chars "tf")
    (by decide) (by decide) (by decide)

/-- Claim C6: the malformed primary seed `"1.5"` parses as a non-integer
literal and, in the environment-variable branch, is accepted without any
error (the branch performs no integer check, unlike the plusarg branches),
while a value that is no literal at all does raise. -/
theorem envvar_seed_nonint_literal_accepted :
    _setup_random_seed (some (chars "1.5")) none [] 0 =
      ([SeedEvent.logSeedInfo], Except.ok (PyLit.floatLit (chars "1.5"))) ∧
    _setup_random_seed (some (chars "abc")) none [] 0 =
      ([], Except.error SeedError.literalEvalError) ∧
    plusargSeedBranch (PlusargVal.str (chars "1.5")) =
      ([], Except.error SeedError.typeError) :=
  ⟨rfl, rfl, rfl⟩

/-- Claim C7: the concrete argument vector parses to the stated mapping, a
`+name=value` token is split on the first `=` with the remainder verbatim, a
bare `+name` maps to the boolean flag, tokens not starting with `+` are
ignored, and a later assignment to a name wins on lookup. -/
theorem plusargs_parse_spec :
    _process_plusargs [chars "+seed=99", chars "+foo", chars "+bar=baz=qux"] =
      [(chars "seed", PlusargVal.str (chars "99")),
       (chars "foo", PlusargVal.flag),
       (chars "bar", PlusargVal.str (chars "baz=qux"))] ∧
    (∀ (m : PlusargMap) (name rest : List Char), '=' ∉ name →
      plusargStep m ('+' :: (name ++ '=' :: rest)) =
        updateAssoc m name (PlusargVal.str rest)) ∧
    (∀ (m : PlusargMap) (name : List Char), '=' ∉ name →
      plusargStep m ('+' :: name) = updateAssoc m name PlusargVal.flag) ∧
    (∀ m : PlusargMap, plusargStep m [] = m) ∧
    (∀ (m : PlusargMap) (c : Char) (rest : List Char), c ≠ '+' →
      plusargStep m (c :: rest) = m) ∧
    (∀ (m : PlusargMap) (k : List Char) (v : PlusargVal),
      lookupAssoc (updateAssoc m k v) k = some v) := by
  refine ⟨by decide, ?_, ?_, fun m => rfl, ?_, lookupAssoc_updateAssoc⟩
  · intro m name rest h
    simp [plusargStep, splitFirstEq_append rest h]
  · intro m name h
    simp [plusargStep, splitFirstEq_no_eq h]
  · intro m c rest h
    simp [plusargStep, h]

/-- Witness for C7 at concrete tokens and a concrete overwritten key. -/
theorem plusargs_parse_spec_witness :
    plusargStep [] ('+' :: (chars "bar" ++ '=' :: chars "baz=qux")) =
      updateAssoc [] (chars "bar") (PlusargVal.str (chars "baz=qux")) ∧
    plusargStep [] ('+' :: chars "foo") =
      updateAssoc [] (chars "foo") PlusargVal.flag ∧
    plusargStep [] ('x' :: chars "yz") = [] ∧
    lookupAssoc (updateAssoc [(chars "k", PlusargVal.flag)] (chars "k")
      (PlusargVal.str (chars "v"))) (chars "k") =
      some (PlusargVal.str (chars "v")) :=
  ⟨plusargs_parse_spec.2.1 [] (chars "bar") (chars "baz=qux") (by decide),
   plusargs_parse_spec.2.2.1 [] (chars "foo") (by decide),
   plusargs_parse_spec.2.2.2.2.1 [] 'x' (chars "yz") (by decide),
   plusargs_parse_spec.2.2.2.2.2 [(chars "k", PlusargVal.flag)] (chars "k")
     (PlusargVal.str (chars "v"))⟩

/-- Claim C8: wrapping a value that is already a Task returns that identical
Task unchanged — `create_task` is idempotent and never double-wraps. -/
theorem create_task_idempotent_on_task :
    ∀ t : PyTask, create_task (CoroInput.task t) = Except.ok t :=
  fun _ => rfl

/-- Claim C9: `"work.top"` resolves using the bare name `"top"`; an unset or
(after trimming) empty name resolves to the simulator default (absent name);
whitespace padding is trimmed; the library qualifier up to and including the
first `.` is discarded; and a bridge failure yields the fatal error naming
the exact attempted root string. -/
theorem root_handle_resolution_spec :
    resolveRootName (some (chars "work.top")) = some (chars "top") ∧
    resolveRootName none = none ∧
    (∀ s : List Char, pyStrip s = [] → resolveRootName (some s) = none) ∧
    (∀ pre s post : List Char, (∀ c ∈ pre, c.isWhitespace) →
      (∀ c ∈ post, c.isWhitespace) →
      resolveRootName (some (pre ++ (s ++ post))) = resolveRootName (some s)) ∧
    (∀ a b : List Char, '.' ∉ a → afterFirstDot (a ++ '.' :: b) = b) ∧
    (∀ (env : Option (List Char)) (bridge : Option (List Char) → Option Nat),
      bridge (resolveRootName env) = none →
      _setup_root_handle env bridge = Except.error (resolveRootName env)) := by
  refine ⟨by decide, rfl, ?_, ?_, ?_, ?_⟩
  · intro s h
    simp [resolveRootName, h]
  · intro pre s post hpre hpost
    simp [resolveRootName, pyStrip_pad s hpre hpost]
  · exact fun a b h => afterFirstDot_append b h
  · intro env bridge h
    simp [_setup_root_handle, h]

/-- Witness for C9 at concrete names and a bridge that returns no handle. -/
theorem root_handle_resolution_spec_witness :
    resolveRootName (some (chars "  ")) = none ∧
    resolveRootName (some (chars " " ++ (chars "work.top" ++ chars " "))) =
      resolveRootName (some (chars "work.top")) ∧
    afterFirstDot (chars "work" ++ '.' :: chars "top") = chars "top" ∧
    _setup_root_handle (some (chars "work.top")) (fun _ => none) =
      Except.error (resolveRootName (some (chars "work.top"))) :=
  ⟨root_handle_resolution_spec.2.2.1 (chars "  ") (by decide),
   root_handle_resolution_spec.2.2.2.1 (chars " ") (chars "work.top")
     (chars " ") (by decide) (by decide),
   root_handle_resolution_spec.2.2.2.2.1 (chars "work") (chars "top")
     (by decide),
   root_handle_resolution_spec.2.2.2.2.2 (some (chars "work.top"))
     (fun _ => none) rfl⟩

/-- Claim C10: a non-empty `COCOTB_TEST_MODULES` consisting only of commas
and whitespace passes the raw-string emptiness check, and test discovery is
invoked with zero module names. -/
theorem separator_only_modules_discover_empty (s : List Char) (hne : s ≠ [])
    (hall : ∀ c ∈ s, c = ',' ∨ c.isWhitespace) :
    _setup_regression_manager (some s) none none =
      ([.setupAssertionRewriting, .discoverTests []], none) := by
  have hm : stripSplitComma s = [] := stripSplitComma_sep hall
  simp [_setup_regression_manager, hne, hm, pyStrip]

/-- Witness for C10 at the concrete module string of a space and commas. -/
theorem separator_only_modules_discover_empty_witness :
    _setup_regression_manager (some (chars " , ,")) none none =
      ([.setupAssertionRewriting, .discoverTests []], none) :=
  separator_only_modules_discover_empty (chars " , ,") (by decide) (by decide)
